import Mathlib

/-!
Shallow embedding of the order-processing backend (Catalog + Orders bounded
contexts) for specification checking.

Modelling conventions:
- Python floats used for money are modelled as exact rationals (`ℚ`);
  `round(x, 2)` is modelled as ideal decimal rounding with ties to even
  (Python's rounding mode), see `round2`.
- Python ints are modelled as `ℤ` (they are unbounded and may be negative).
- Raising an exception is modelled as returning `Except.error` carrying a
  `DomainError`; non-domain Python exceptions (`AttributeError`, pydantic
  errors) are modelled by the `unexpectedError` constructor.
- The interpolated parts of exception message strings (product names,
  quantities) are abbreviated; the constant message text is kept.  Accented
  characters are transliterated to ASCII.
- `datetime` metadata fields (`created_at`, `updated_at`, `confirmed_at`) and
  UUID generation are omitted: ids are modelled as `Nat` parameters and no
  claim mentions timestamps.
- The product repository (`SQLAlchemyProductRepository`) is modelled as an
  explicit association list `State` from product id to `Product`, threaded
  through the use cases; stateful methods take and return a `State`, and a
  raised exception returns the state reached at the point of the raise
  (mirroring that the shared DB session keeps earlier writes).
-/

/-- Domain error taxonomy from `src/core/exceptions.py` plus
`StockReservationError` from `src/modules/pedidos/domain/gateways.py`;
`unexpectedError` stands for any non-domain Python exception. -/
inductive DomainError where
  | validationError (msg : String)
  | businessRuleViolation (msg : String)
  | notFoundError (entity_name : String) (entity_id : String)
  | stockReservationError (msg : String)
  | unexpectedError (msg : String)
deriving DecidableEq, Repr

/-- The `message` attribute of a domain exception (`NotFoundError` composes
its message from the entity name and id). -/
def DomainError.message : DomainError → String
  | .validationError m => m
  | .businessRuleViolation m => m
  | .notFoundError n i => n ++ " con ID " ++ i ++ " no encontrado"
  | .stockReservationError m => m
  | .unexpectedError m => m

/-- True exactly on `StockReservationError`. -/
def DomainError.is_sre : DomainError → Bool
  | .stockReservationError _ => true
  | _ => false

/-- Rounding of a rational to the nearest integer with ties to even,
the rounding mode of Python `round`. -/
def roundHalfEven (q : ℚ) : ℤ :=
  let f : ℤ := ⌊q⌋
  let r : ℚ := q - f
  if r < 1/2 then f
  else if 1/2 < r then f + 1
  else if f % 2 = 0 then f else f + 1

/-- Model of Python `round(x, 2)` on the rational model of floats. -/
def round2 (x : ℚ) : ℚ := (roundHalfEven (x * 100) : ℚ) / 100

/-! ## Catalog value objects (`src/modules/catalogo/domain/value_objects.py`) -/

/-- Stock Keeping Unit value object. -/
structure SKU where
  value : String
deriving DecidableEq, Repr

/-- Constructor of `SKU` with the `__post_init__` validations: non-empty,
at least 5 characters, alphanumeric or hyphen only.  The stored `value` is
the input as given (the class performs no case normalization). -/
def mkSKU (value : String) : Except DomainError SKU :=
  if value = "" then
    .error (.validationError "SKU no puede estar vacio")
  else if value.length < 5 then
    .error (.validationError "SKU debe tener al menos 5 caracteres")
  else if (value.data.all fun c => c.isAlphanum || c = '-') = false then
    .error (.validationError "SKU solo puede contener caracteres alfanumericos y guiones")
  else
    .ok ⟨value⟩

/-- Model of Python `str.upper()` as a per-character map (per-character
iteration is also how the SKU validation walks the string). -/
def str_upper (v : String) : String := ⟨v.data.map Char.toUpper⟩

/-- The `validate_sku_format` field validator of `CreateProductCommand`
(`create_product/command.py`): rejects non alphanumeric/hyphen characters and
returns the input upper-cased.  (The `min_length=5` pydantic field constraint
is checked separately by the DTO; it is not part of this validator.) -/
def validate_sku_format (v : String) : Except DomainError String :=
  if (v.data.all fun c => c.isAlphanum || c = '-') = false then
    .error (.validationError "SKU solo puede contener caracteres alfanumericos y guiones")
  else
    .ok (str_upper v)

/-- Price value object: an amount (exact-rational model of the float) and a
currency code. -/
structure Price where
  amount : ℚ
  currency : String := "USD"
deriving DecidableEq, Repr

/-- Constructor of `Price` with the `__post_init__` validations. -/
def mkPrice (amount : ℚ) (currency : String := "USD") : Except DomainError Price :=
  if amount ≤ 0 then
    .error (.validationError "El precio debe ser mayor que 0")
  else if round2 amount ≠ amount then
    .error (.validationError "El precio no puede tener mas de 2 decimales")
  else if currency = "" then
    .error (.validationError "La moneda no puede estar vacia")
  else if currency.length ≠ 3 then
    .error (.validationError "La moneda debe tener 3 caracteres")
  else
    .ok ⟨amount, currency⟩

/-- Stock value object; the class invariant (quantity never negative) is
established by `mkStock` and preserved by `decrease`/`increase`. -/
structure Stock where
  quantity : ℤ
deriving DecidableEq, Repr

/-- Constructor of `Stock`: rejects negative quantities. -/
def mkStock (quantity : ℤ) : Except DomainError Stock :=
  if quantity < 0 then .error (.validationError "El stock no puede ser negativo")
  else .ok ⟨quantity⟩

/-- `Stock.is_available`: `self.quantity >= requested_quantity`. -/
def Stock.is_available (st : Stock) (requested_quantity : ℤ) : Bool :=
  decide (requested_quantity ≤ st.quantity)

/-- `Stock.decrease`: fails on a negative amount, fails when the new quantity
would be negative, otherwise returns a new `Stock`. -/
def Stock.decrease (st : Stock) (amount : ℤ) : Except DomainError Stock :=
  if amount < 0 then
    .error (.validationError "No se puede reducir el stock por una cantidad negativa")
  else if st.quantity - amount < 0 then
    .error (.validationError "Stock insuficiente")
  else
    .ok ⟨st.quantity - amount⟩

/-- `Stock.increase`: fails on a negative amount, otherwise adds it. -/
def Stock.increase (st : Stock) (amount : ℤ) : Except DomainError Stock :=
  if amount < 0 then
    .error (.validationError "No se puede aumentar el stock por una cantidad negativa")
  else
    .ok ⟨st.quantity + amount⟩

/-! ## Catalog entity (`src/modules/catalogo/domain/entities.py`) -/

/-- Product aggregate root.  `sku` and `price` default to `None` in the
dataclass, hence `Option`; timestamps are omitted (see file header). -/
structure Product where
  product_id : Nat
  sku : Option SKU := none
  name : String := ""
  description : String := ""
  price : Option Price := none
  stock : Stock := ⟨0⟩
  is_active : Bool := true
deriving DecidableEq, Repr

/-- `Product.__post_init__`: the name must be non-empty and at least 3
characters long. -/
def mkProduct (p : Product) : Except DomainError Product :=
  if p.name = "" then
    .error (.businessRuleViolation "El nombre del producto no puede estar vacio")
  else if p.name.length < 3 then
    .error (.businessRuleViolation "El nombre del producto debe tener al menos 3 caracteres")
  else
    .ok p

/-- `Product.update_price`: when a price is already set (`if self.price:`),
fails with `BusinessRuleViolation` when the absolute relative change exceeds
one half; otherwise (and always on a first price) stores the new price. -/
def Product.update_price (p : Product) (new_price : Price) : Except DomainError Product :=
  match p.price with
  | some old =>
      if |new_price.amount - old.amount| / old.amount > 1/2 then
        .error (.businessRuleViolation "El precio no puede cambiar mas del 50% de una vez")
      else
        .ok { p with price := some new_price }
  | none => .ok { p with price := some new_price }

/-- `Product.reserve_stock`: fails on an inactive product, fails when stock is
not available, otherwise sets `stock` to `stock.decrease(quantity)` (whose own
failures propagate, as in the source where the `decrease` call may raise). -/
def Product.reserve_stock (p : Product) (quantity : ℤ) : Except DomainError Product :=
  if p.is_active = false then
    .error (.businessRuleViolation ("No se puede reservar stock de un producto inactivo: " ++ p.name))
  else if p.stock.is_available quantity = false then
    .error (.businessRuleViolation ("Stock insuficiente para el producto " ++ p.name))
  else
    match p.stock.decrease quantity with
    | .error e => .error e
    | .ok st => .ok { p with stock := st }

/-- `Product.replenish_stock`: `stock = stock.increase(quantity)`. -/
def Product.replenish_stock (p : Product) (quantity : ℤ) : Except DomainError Product :=
  match p.stock.increase quantity with
  | .error e => .error e
  | .ok st => .ok { p with stock := st }

/-! ## Repository state

The product repository is modelled as an association list from product id to
`Product`.  `get_by_id` is the repository lookup; `update_product` replaces
the stored entity with the same id (SQLAlchemy merge-by-primary-key). -/

/-- Modelled persistent state of the catalog: stored products keyed by id. -/
def State : Type := List (Nat × Product)

instance : DecidableEq State := inferInstanceAs (DecidableEq (List (Nat × Product)))

/-- Repository `get_by_id`: the stored product with this id, if any. -/
def get_by_id (s : State) (product_id : Nat) : Option Product :=
  match List.find? (fun kv => kv.1 = product_id) s with
  | some kv => some kv.2
  | none => none

/-- Repository `update`: replace the entity stored under `p.product_id`. -/
def update_product (s : State) (p : Product) : State :=
  List.map (fun kv => if kv.1 = p.product_id then (p.product_id, p) else kv) s

/-! ## Reserve-stock use case
(`src/modules/catalogo/application/features/reserve_stock/`) -/

/-- `ReserveStockItemCommand` DTO (the pydantic field constraint is
`quantity > 0` at the API boundary; the field itself is an int). -/
structure ReserveStockItemCommand where
  product_id : Nat
  quantity : ℤ
deriving DecidableEq, Repr

/-- `ReserveStockCommand` DTO. -/
structure ReserveStockCommand where
  items : List ReserveStockItemCommand
deriving DecidableEq, Repr

/-- `ProductStockInfo` response DTO. -/
structure ProductStockInfo where
  product_id : Nat
  product_name : String
  sku : String
  requested_quantity : ℤ
  reserved_quantity : ℤ
  remaining_stock : ℤ
  unit_price : ℚ
deriving DecidableEq, Repr

/-- `ReserveStockResponse` DTO. -/
structure ReserveStockResponse where
  success : Bool
  products : List ProductStockInfo
  message : String := ""
deriving DecidableEq, Repr

/-- Display of a `Product.sku` field via `str(...)`: `str(None)` is
`"None"`. -/
def sku_str : Option SKU → String
  | some k => k.value
  | none => "None"

/-- Phase 1 of `ReserveStockUseCase.execute` (the first `for` loop): for every
item, load the product (raise `NotFoundError` when missing) and check
availability (raise `BusinessRuleViolation` when insufficient).  The state is
only read, never written. -/
def verification_phase (s : State) : List ReserveStockItemCommand → Except DomainError Unit
  | [] => .ok ()
  | item :: rest =>
      match get_by_id s item.product_id with
      | none => .error (.notFoundError "Product" (toString item.product_id))
      | some product =>
          if product.stock.is_available item.quantity = false then
            .error (.businessRuleViolation ("Stock insuficiente para el producto " ++ product.name))
          else
            verification_phase s rest

/-- Phase 2 of `ReserveStockUseCase.execute` (the second `for` loop): re-load
each product, call `reserve_stock`, persist via `update`, and record a
`ProductStockInfo`.  A missing product or a missing price at this point is the
Python `AttributeError` on `None` (modelled as `unexpectedError`); note that
the repository update precedes the price access, as in the source.  A raise
leaves the updates already performed in place (third-party session). -/
def commit_phase (s : State) :
    List ReserveStockItemCommand → List ProductStockInfo →
    State × Except DomainError (List ProductStockInfo)
  | [], acc => (s, .ok acc.reverse)
  | item :: rest, acc =>
      match get_by_id s item.product_id with
      | none => (s, .error (.unexpectedError "NoneType has no attribute reserve_stock"))
      | some product =>
          match product.reserve_stock item.quantity with
          | .error e => (s, .error e)
          | .ok updated_product =>
              let s2 := update_product s updated_product
              match updated_product.price with
              | none => (s2, .error (.unexpectedError "NoneType has no attribute amount"))
              | some pr =>
                  commit_phase s2 rest
                    ({ product_id := updated_product.product_id
                       product_name := updated_product.name
                       sku := sku_str updated_product.sku
                       requested_quantity := item.quantity
                       reserved_quantity := item.quantity
                       remaining_stock := updated_product.stock.quantity
                       unit_price := pr.amount } :: acc)

/-- `ReserveStockUseCase.execute`: phase 1 (verification, read-only) then
phase 2 (commit); on success a `ReserveStockResponse` with `success = true`
and one `ProductStockInfo` per item, in item order. -/
def ReserveStockUseCase.execute (s : State) (command : ReserveStockCommand) :
    State × Except DomainError ReserveStockResponse :=
  match verification_phase s command.items with
  | .error e => (s, .error e)
  | .ok _ =>
      match commit_phase s command.items [] with
      | (s2, .error e) => (s2, .error e)
      | (s2, .ok infos) =>
          (s2, .ok { success := true, products := infos,
                     message := "Stock reservado exitosamente" })

/-! ## Orders value objects (`src/modules/pedidos/domain/value_objects.py`) -/

/-- Order lifecycle status. -/
inductive OrderStatus where
  | pending
  | confirmed
  | processing
  | shipped
  | delivered
  | cancelled
deriving DecidableEq, Repr

/-- The string value of an `OrderStatus` enum member. -/
def OrderStatus.value : OrderStatus → String
  | .pending => "pending"
  | .confirmed => "confirmed"
  | .processing => "processing"
  | .shipped => "shipped"
  | .delivered => "delivered"
  | .cancelled => "cancelled"

/-- Quantity value object. -/
structure Quantity where
  value : ℤ
deriving DecidableEq, Repr

/-- Constructor of `Quantity`: the value must be positive (the
`isinstance(..., int)` check always passes in the typed model). -/
def mkQuantity (value : ℤ) : Except DomainError Quantity :=
  if value ≤ 0 then .error (.validationError "La cantidad debe ser mayor que 0")
  else .ok ⟨value⟩

/-- Address value object. -/
structure Address where
  street : String
  city : String
  state : String
  postal_code : String
  country : String := "Colombia"
deriving DecidableEq, Repr

/-- Constructor of `Address` with the `__post_init__` validations. -/
def mkAddress (street city state postal_code : String)
    (country : String := "Colombia") : Except DomainError Address :=
  if street = "" ∨ street.length < 5 then
    .error (.validationError "La calle debe tener al menos 5 caracteres")
  else if city = "" ∨ city.length < 2 then
    .error (.validationError "La ciudad debe tener al menos 2 caracteres")
  else if state = "" then
    .error (.validationError "El estado/departamento es obligatorio")
  else if postal_code = "" then
    .error (.validationError "El codigo postal es obligatorio")
  else if country = "" then
    .error (.validationError "El pais es obligatorio")
  else
    .ok ⟨street, city, state, postal_code, country⟩

/-- Customer information value object. -/
structure CustomerInfo where
  customer_id : String
  name : String
  email : String
  phone : String
deriving DecidableEq, Repr

/-- Constructor of `CustomerInfo` with the `__post_init__` validations. -/
def mkCustomerInfo (customer_id name email phone : String) :
    Except DomainError CustomerInfo :=
  if customer_id = "" then
    .error (.validationError "El ID del cliente es obligatorio")
  else if name = "" ∨ name.length < 3 then
    .error (.validationError "El nombre debe tener al menos 3 caracteres")
  else if email = "" ∨ email.data.contains '@' = false then
    .error (.validationError "El email debe ser valido")
  else if phone = "" then
    .error (.validationError "El telefono es obligatorio")
  else
    .ok ⟨customer_id, name, email, phone⟩

/-! ## Orders entities (`src/modules/pedidos/domain/entities.py`) -/

/-- Line item of an order. -/
structure OrderItem where
  product_id : Nat
  product_name : String
  quantity : Quantity
  unit_price : ℚ
deriving DecidableEq, Repr

/-- Constructor of `OrderItem` with its `__post_init__` validation: the unit
price must be strictly positive. -/
def mkOrderItem (product_id : Nat) (product_name : String) (quantity : Quantity)
    (unit_price : ℚ) : Except DomainError OrderItem :=
  if unit_price ≤ 0 then
    .error (.businessRuleViolation "El precio unitario debe ser mayor que 0")
  else
    .ok ⟨product_id, product_name, quantity, unit_price⟩

/-- `OrderItem.calculate_subtotal`: `round(quantity * unit_price, 2)`. -/
def OrderItem.calculate_subtotal (it : OrderItem) : ℚ :=
  round2 (it.quantity.value * it.unit_price)

/-- Order aggregate root (timestamps and the generated UUID omitted, see file
header; `customer_info` and `shipping_address` default to `None` in the
dataclass, hence `Option`). -/
structure Order where
  customer_info : Option CustomerInfo := none
  items : List OrderItem := []
  shipping_address : Option Address := none
  status : OrderStatus := .pending
  total_amount : ℚ := 0
deriving DecidableEq, Repr

/-- `Order.calculate_total`: sum of the item subtotals, rounded to 2
decimals. -/
def Order.calculate_total (o : Order) : ℚ :=
  round2 ((o.items.map OrderItem.calculate_subtotal).sum)

/-- `Order.__post_init__` applied to a dataclass instance with every field
explicit: at least one item, mandatory customer info and shipping address;
when the incoming `total_amount` equals `0.0` it is recomputed with
`calculate_total`. -/
def mkOrderFull (customer_info : Option CustomerInfo) (items : List OrderItem)
    (shipping_address : Option Address) (status : OrderStatus)
    (total_amount : ℚ) : Except DomainError Order :=
  if items = [] then
    .error (.businessRuleViolation "Una orden debe tener al menos un item")
  else if customer_info.isNone then
    .error (.businessRuleViolation "La informacion del cliente es obligatoria")
  else if shipping_address.isNone then
    .error (.businessRuleViolation "La direccion de envio es obligatoria")
  else
    let o : Order := ⟨customer_info, items, shipping_address, status, total_amount⟩
    .ok (if total_amount = 0 then { o with total_amount := o.calculate_total } else o)

/-- Order construction as performed by every fresh-order call site: `status`
and `total_amount` take their dataclass defaults (`PENDING`, `0.0`). -/
def mkOrder (customer_info : Option CustomerInfo) (items : List OrderItem)
    (shipping_address : Option Address) : Except DomainError Order :=
  mkOrderFull customer_info items shipping_address .pending 0

/-- `Order.confirm`: only from `PENDING`; moves to `CONFIRMED`. -/
def Order.confirm (o : Order) : Except DomainError Order :=
  if o.status ≠ .pending then
    .error (.businessRuleViolation "Solo se pueden confirmar ordenes en estado PENDING")
  else
    .ok { o with status := .confirmed }

/-- `Order.cancel`: rejected from `SHIPPED` or `DELIVERED`, rejected when
already `CANCELLED`, otherwise moves to `CANCELLED`. -/
def Order.cancel (o : Order) : Except DomainError Order :=
  if o.status = .shipped ∨ o.status = .delivered then
    .error (.businessRuleViolation "No se puede cancelar una orden en este estado")
  else if o.status = .cancelled then
    .error (.businessRuleViolation "La orden ya esta cancelada")
  else
    .ok { o with status := .cancelled }

/-- `Order.mark_as_processing`: only from `CONFIRMED`. -/
def Order.mark_as_processing (o : Order) : Except DomainError Order :=
  if o.status ≠ .confirmed then
    .error (.businessRuleViolation "Solo se pueden procesar ordenes confirmadas")
  else
    .ok { o with status := .processing }

/-- `Order.mark_as_shipped`: only from `PROCESSING`. -/
def Order.mark_as_shipped (o : Order) : Except DomainError Order :=
  if o.status ≠ .processing then
    .error (.businessRuleViolation "Solo se pueden enviar ordenes en proceso")
  else
    .ok { o with status := .shipped }

/-- `Order.mark_as_delivered`: only from `SHIPPED`. -/
def Order.mark_as_delivered (o : Order) : Except DomainError Order :=
  if o.status ≠ .shipped then
    .error (.businessRuleViolation "Solo se pueden entregar ordenes enviadas")
  else
    .ok { o with status := .delivered }

/-- `Order.add_item`: only while `PENDING`; appends the item and recomputes
`total_amount` with `calculate_total`. -/
def Order.add_item (o : Order) (item : OrderItem) : Except DomainError Order :=
  if o.status ≠ .pending then
    .error (.businessRuleViolation "Solo se pueden agregar items a ordenes pendientes")
  else
    let o2 := { o with items := o.items ++ [item] }
    .ok { o2 with total_amount := o2.calculate_total }

/-! ## Inventory gateway
(`src/modules/pedidos/domain/gateways.py`, port, and
`src/modules/pedidos/infrastructure/gateways.py`, adapter) -/

/-- The `InventoryGateway` port: the orchestrator receives any implementation
by dependency injection. -/
structure InventoryGateway where
  verify_and_reserve_stock :
    State → List OrderItem → State × Except DomainError (List OrderItem × Bool)
  release_stock : State → List OrderItem → State × Except DomainError Bool
  verify_product_exists : State → Nat → Bool

/-- Back-fill loop of `CatalogoInventoryGateway.verify_and_reserve_stock`:
`for i, product_info in enumerate(response.products)` overwrites
`items[i].product_name` and `items[i].unit_price`.  The two lists always have
equal length at the call site. -/
def backfill_items : List OrderItem → List ProductStockInfo → List OrderItem
  | its, [] => its
  | [], _ => []
  | it :: its, info :: infos =>
      { it with product_name := info.product_name, unit_price := info.unit_price }
        :: backfill_items its infos

/-- The `except` clauses of `CatalogoInventoryGateway.verify_and_reserve_stock`:
`NotFoundError` and `BusinessRuleViolation` get dedicated wrapping messages,
any other exception falls to the `except Exception` clause. -/
def wrap_reservation_error (e : DomainError) : String :=
  match e with
  | .notFoundError n i => "Producto no encontrado: " ++ (DomainError.notFoundError n i).message
  | .businessRuleViolation m => "No se pudo reservar stock: " ++ m
  | e => "Error inesperado al reservar stock: " ++ e.message

/-- `CatalogoInventoryGateway.verify_and_reserve_stock`: converts the order
items to a `ReserveStockCommand` (whose pydantic `min_length=1` constraint
raises on an empty list, caught by `except Exception`), runs the catalog
reserve-stock use case, back-fills the items from the response on success,
and wraps every exception in a `StockReservationError`. -/
def CatalogoInventoryGateway.verify_and_reserve_stock (s : State)
    (items : List OrderItem) : State × Except DomainError (List OrderItem × Bool) :=
  let reserve_items := items.map fun it =>
    ReserveStockItemCommand.mk it.product_id it.quantity.value
  if items.isEmpty then
    (s, .error (.stockReservationError
      "Error inesperado al reservar stock: lista de items vacia"))
  else
    match ReserveStockUseCase.execute s { items := reserve_items } with
    | (s2, .error e) => (s2, .error (.stockReservationError (wrap_reservation_error e)))
    | (s2, .ok response) =>
        (s2, .ok (backfill_items items response.products, response.success))

/-- `CatalogoInventoryGateway.release_stock`: placeholder implementation — it
performs no catalog call at all and returns `True`.  (The source carries a
TODO for the missing `ReleaseStockUseCase`.) -/
def CatalogoInventoryGateway.release_stock (s : State) (_items : List OrderItem) :
    State × Except DomainError Bool :=
  (s, .ok true)

/-- Core of `CatalogoInventoryGateway.verify_product_exists`, expressed over
the outcome of the repository lookup (`get_by_id` may itself raise inside the
`try`): returns `product is not None`, and `False` for any exception. -/
def verify_product_exists_outcome (r : Except DomainError (Option Product)) : Bool :=
  match r with
  | .ok product => product.isSome
  | .error _ => false

/-- `CatalogoInventoryGateway.verify_product_exists` over the modelled
repository, in which the lookup is total. -/
def CatalogoInventoryGateway.verify_product_exists (s : State) (product_id : Nat) : Bool :=
  verify_product_exists_outcome (.ok (get_by_id s product_id))

/-- The concrete gateway adapter bundled as an `InventoryGateway` port
instance. -/
def catalogoInventoryGateway : InventoryGateway where
  verify_and_reserve_stock := CatalogoInventoryGateway.verify_and_reserve_stock
  release_stock := CatalogoInventoryGateway.release_stock
  verify_product_exists := CatalogoInventoryGateway.verify_product_exists

/-! ## Place-order use case
(`src/modules/pedidos/application/features/place_order/`) -/

/-- `OrderItemCommand` DTO (pydantic declares `quantity > 0` at the API
boundary; the carried field is an int). -/
structure OrderItemCommand where
  product_id : Nat
  quantity : ℤ
deriving DecidableEq, Repr

/-- `CustomerInfoCommand` DTO. -/
structure CustomerInfoCommand where
  customer_id : String
  name : String
  email : String
  phone : String
deriving DecidableEq, Repr

/-- `AddressCommand` DTO. -/
structure AddressCommand where
  street : String
  city : String
  state : String
  postal_code : String
  country : String := "Colombia"
deriving DecidableEq, Repr

/-- `PlaceOrderCommand` DTO (pydantic requires at least one item at the API
boundary). -/
structure PlaceOrderCommand where
  customer_info : CustomerInfoCommand
  items : List OrderItemCommand
  shipping_address : AddressCommand
deriving DecidableEq, Repr

/-- `OrderItemResponse` DTO. -/
structure OrderItemResponse where
  product_id : Nat
  product_name : String
  quantity : ℤ
  unit_price : ℚ
  subtotal : ℚ
deriving DecidableEq, Repr

/-- `PlaceOrderResponse` DTO (timestamps and generated order id omitted). -/
structure PlaceOrderResponse where
  customer_id : String
  customer_name : String
  items : List OrderItemResponse
  total_amount : ℚ
  status : String
deriving DecidableEq, Repr

/-- Step 2 of `PlaceOrderUseCase.execute`: for each requested item, check
existence through the gateway (raising `NotFoundError` when absent), build the
`Quantity` value object, and construct the preliminary `OrderItem` with the
placeholder name `""` and unit price `0.0`. -/
def build_preliminary_items (gw : InventoryGateway) (s : State) :
    List OrderItemCommand → Except DomainError (List OrderItem)
  | [] => .ok []
  | item_cmd :: rest =>
      if gw.verify_product_exists s item_cmd.product_id = false then
        .error (.notFoundError "Product" (toString item_cmd.product_id))
      else
        match mkQuantity item_cmd.quantity with
        | .error e => .error e
        | .ok q =>
            match mkOrderItem item_cmd.product_id "" q 0 with
            | .error e => .error e
            | .ok order_item =>
                match build_preliminary_items gw s rest with
                | .error e => .error e
                | .ok items => .ok (order_item :: items)

/-- Step 3 of `PlaceOrderUseCase.execute` (the `try`/`except` block): invoke
the gateway; a raised `StockReservationError` is caught and re-raised as
`BusinessRuleViolation` with the wrapped message; any other outcome passes
through. -/
def place_order_reserve_step (gw : InventoryGateway) (s : State)
    (items : List OrderItem) : State × Except DomainError (List OrderItem × Bool) :=
  match gw.verify_and_reserve_stock s items with
  | (s2, .error (.stockReservationError m)) =>
      (s2, .error (.businessRuleViolation ("No se pudo reservar el stock: " ++ m)))
  | other => other

/-- Step 7 of `PlaceOrderUseCase.execute`: map the saved order to the response
DTO. -/
def mkPlaceOrderResponse (o : Order) : PlaceOrderResponse :=
  { customer_id := (o.customer_info.map CustomerInfo.customer_id).getD ""
    customer_name := (o.customer_info.map CustomerInfo.name).getD ""
    items := o.items.map fun it =>
      { product_id := it.product_id
        product_name := it.product_name
        quantity := it.quantity.value
        unit_price := it.unit_price
        subtotal := it.calculate_subtotal }
    total_amount := o.total_amount
    status := o.status.value }

/-- `PlaceOrderUseCase.execute`: build the customer/address value objects,
build preliminary items, reserve stock through the gateway (converting
`StockReservationError` to `BusinessRuleViolation`), construct and confirm the
`Order`, persist it (the order repository `save` returns its argument) and
map it to the response. -/
def place_order_execute (gw : InventoryGateway) (s : State)
    (command : PlaceOrderCommand) : State × Except DomainError PlaceOrderResponse :=
  match mkCustomerInfo command.customer_info.customer_id command.customer_info.name
      command.customer_info.email command.customer_info.phone with
  | .error e => (s, .error e)
  | .ok customer_info =>
  match mkAddress command.shipping_address.street command.shipping_address.city
      command.shipping_address.state command.shipping_address.postal_code
      command.shipping_address.country with
  | .error e => (s, .error e)
  | .ok shipping_address =>
  match build_preliminary_items gw s command.items with
  | .error e => (s, .error e)
  | .ok order_items =>
  match place_order_reserve_step gw s order_items with
  | (s2, .error e) => (s2, .error e)
  | (s2, .ok (filled_items, _)) =>
  match mkOrder (some customer_info) filled_items (some shipping_address) with
  | .error e => (s2, .error e)
  | .ok order =>
  match order.confirm with
  | .error e => (s2, .error e)
  | .ok confirmed_order => (s2, .ok (mkPlaceOrderResponse confirmed_order))

/-! ## Generic instances and shared concrete fixtures -/

deriving instance DecidableEq for Except

/-- Concrete catalog product: active, priced 50.00 USD, stock 10. -/
def P1 : Product :=
  { product_id := 1, sku := some ⟨"PROD-001"⟩, name := "Laptop",
    price := some ⟨50, "USD"⟩, stock := ⟨10⟩ }

/-- Concrete catalog product: active, priced 5.00 USD, stock 1. -/
def P2 : Product :=
  { product_id := 2, sku := some ⟨"PROD-002"⟩, name := "Mouse",
    price := some ⟨5, "USD"⟩, stock := ⟨1⟩ }

/-- Concrete catalog product: active, priced 20.00 USD, stock 7. -/
def P3 : Product :=
  { product_id := 3, sku := some ⟨"PROD-003"⟩, name := "Teclado",
    price := some ⟨20, "USD"⟩, stock := ⟨7⟩ }

/-- Concrete repository state holding the three products. -/
def s0 : State := [(1, P1), (2, P2), (3, P3)]

/-- Concrete product with prior price 100.00. -/
def pr100 : Product :=
  { product_id := 9, name := "Monitor", price := some ⟨100, "USD"⟩, stock := ⟨4⟩ }

/-- Concrete active product with stock 5. -/
def p_active5 : Product :=
  { product_id := 7, name := "Gadget", price := some ⟨10, "USD"⟩, stock := ⟨5⟩ }

/-- Concrete pending order. -/
def ord_pending : Order :=
  { customer_info := some ⟨"CUST-001", "Juan Perez", "juan@example.com", "300"⟩
    items := [⟨1, "Laptop", ⟨2⟩, 50⟩]
    shipping_address := some ⟨"Calle 123 45", "Bogota", "Cund", "110111", "Colombia"⟩
    status := .pending
    total_amount := 100 }

/-- Concrete shipped order. -/
def ord_shipped : Order := { ord_pending with status := .shipped }

/-- Concrete order item: 2 units at 50.00. -/
def oi50 : OrderItem := ⟨1, "Laptop", ⟨2⟩, 50⟩

/-- Concrete customer fixture. -/
def cust0 : CustomerInfo := ⟨"CUST-001", "Juan Perez", "juan@example.com", "300"⟩

/-- Concrete address fixture. -/
def addr0 : Address := ⟨"Calle 123 45", "Bogota", "Cund", "110111", "Colombia"⟩

/-- Concrete place-order command: one item, quantity 2, of the existing
product 1, with valid customer and address data. -/
def cmd0 : PlaceOrderCommand :=
  { customer_info := ⟨"CUST-001", "Juan Perez", "juan@example.com", "300"⟩
    items := [⟨1, 2⟩]
    shipping_address := ⟨"Calle 123 45", "Bogota", "Cund", "110111", "Colombia"⟩ }

/-- The reserved order items for the C5 scenario (placeholder fields as built
by the orchestrator). -/
def rel_items : List OrderItem := [⟨1, "", ⟨2⟩, 0⟩]

/-- The catalog state after reserving 2 units of product 1 from `s0`. -/
def s_reserved : State := [(1, { P1 with stock := ⟨8⟩ }), (2, P2), (3, P3)]

/-- An item of a reservation batch is bad for state `s` when its product is
missing from the repository or the product's stock is below the requested
quantity. -/
def bad_item (s : State) (product_id : Nat) (quantity : ℤ) : Prop :=
  get_by_id s product_id = none ∨
    ∃ p, get_by_id s product_id = some p ∧ p.stock.quantity < quantity

/-- The first order item of the C1 scenario (product 1, quantity 1). -/
def c1_item1 : OrderItem := ⟨1, "", ⟨1⟩, 0⟩

/-- The second order item of the C1 scenario (product 2, quantity 5, but
product 2 has stock 1: insufficient). -/
def c1_item2 : OrderItem := ⟨2, "", ⟨5⟩, 0⟩

/-- The third order item of the C1 scenario (product 3, quantity 2). -/
def c1_item3 : OrderItem := ⟨3, "", ⟨2⟩, 0⟩

/-- A port-conforming gateway whose reservation always fails with
`StockReservationError`. -/
def gw_bad : InventoryGateway where
  verify_and_reserve_stock := fun s _ => (s, .error (.stockReservationError "stock agotado"))
  release_stock := fun s _ => (s, .ok true)
  verify_product_exists := fun _ _ => true

/-! ## Claim C4 -/

/-- Claim C4 as stated is false on the code: the `SKU` value object performs
no case normalization, so constructing `SKU` from `"prod-001"` stores
`"prod-001"`, not `"PROD-001"`. -/
theorem C4_counterexample :
    mkSKU "prod-001" = .ok ⟨"prod-001"⟩ ∧
    mkSKU "prod-001" ≠ .ok ⟨"PROD-001"⟩ := by
  decide

/-- Claim C4, amended: an accepted `SKU` keeps its input verbatim (no case
normalization in the value object); every input shorter than 5 characters
fails with a validation error; upper-casing is performed by the
`CreateProductCommand` field validator, before `SKU` construction. -/
theorem C4_sku_validation :
    ∀ v : String,
      (∀ k, mkSKU v = .ok k → k.value = v) ∧
      (v.length < 5 → ∃ m, mkSKU v = .error (.validationError m)) ∧
      (∀ u, validate_sku_format v = .ok u → u = str_upper v) := by
  intro v
  refine ⟨?_, ?_, ?_⟩
  · intro k h
    unfold mkSKU at h
    split_ifs at h <;> first
      | exact Except.noConfusion h
      | (cases h; rfl)
  · intro hlt
    by_cases hv : v = ""
    · exact ⟨_, by rw [mkSKU, if_pos hv]⟩
    · exact ⟨_, by rw [mkSKU, if_neg hv, if_pos hlt]⟩
  · intro u h
    unfold validate_sku_format at h
    split_ifs at h <;> first
      | exact Except.noConfusion h
      | (cases h; rfl)

/-- Witness for C4: `"AB"` has fewer than 5 characters and is rejected. -/
theorem C4_witness :
    ("AB" : String).length < 5 ∧ ∃ m, mkSKU "AB" = .error (.validationError m) :=
  ⟨by decide, (C4_sku_validation "AB").2.1 (by decide)⟩

/-! ## Claim C6 -/

/-- Claim C6: with a prior price, `update_price` fails with
`BusinessRuleViolation` exactly when the absolute relative change exceeds one
half, and otherwise stores the new price; with no prior price it always
stores the new price. -/
theorem C6_update_price :
    ∀ (p : Product) (new_price : Price),
      (∀ old, p.price = some old →
        ((∃ m, p.update_price new_price = .error (.businessRuleViolation m)) ↔
          |new_price.amount - old.amount| / old.amount > 1/2) ∧
        (¬ |new_price.amount - old.amount| / old.amount > 1/2 →
          p.update_price new_price = .ok { p with price := some new_price })) ∧
      (p.price = none →
        p.update_price new_price = .ok { p with price := some new_price }) := by
  intro p new_price
  constructor
  · intro old hold
    have hre : p.update_price new_price =
        if |new_price.amount - old.amount| / old.amount > 1/2 then
          .error (.businessRuleViolation "El precio no puede cambiar mas del 50% de una vez")
        else .ok { p with price := some new_price } := by
      unfold Product.update_price
      rw [hold]
    rw [hre]
    constructor
    · constructor
      · intro ⟨m, hm⟩
        by_contra hgt
        rw [if_neg hgt] at hm
        exact Except.noConfusion hm
      · intro hgt
        rw [if_pos hgt]
        exact ⟨_, rfl⟩
    · intro hle
      rw [if_neg hle]
  · intro hnone
    unfold Product.update_price
    rw [hnone]

/-- Witness for C6 at old amount 100.0: new 160.0 fails, new 150.0 (exactly
50%) succeeds, new 140.0 succeeds. -/
theorem C6_witness :
    pr100.price = some ⟨100, "USD"⟩ ∧
    (∃ m, pr100.update_price ⟨160, "USD"⟩ = .error (.businessRuleViolation m)) ∧
    pr100.update_price ⟨150, "USD"⟩ = .ok { pr100 with price := some ⟨150, "USD"⟩ } ∧
    pr100.update_price ⟨140, "USD"⟩ = .ok { pr100 with price := some ⟨140, "USD"⟩ } :=
  ⟨rfl,
   ((C6_update_price pr100 ⟨160, "USD"⟩).1 ⟨100, "USD"⟩ rfl).1.mpr (by norm_num),
   ((C6_update_price pr100 ⟨150, "USD"⟩).1 ⟨100, "USD"⟩ rfl).2 (by norm_num),
   ((C6_update_price pr100 ⟨140, "USD"⟩).1 ⟨100, "USD"⟩ rfl).2 (by norm_num)⟩

/-! ## Claim C9 -/

/-- Claim C9, amended with the hypothesis `0 ≤ qty`: `reserve_stock` fails
with `BusinessRuleViolation` when the product is inactive (regardless of
stock) or when `stock.quantity < qty`, and otherwise succeeds with the stock
decreased by exactly `qty`.  (For `qty < 0` the guards pass but
`stock.decrease` raises `ValidationError`, see `C9_counterexample`.) -/
theorem C9_reserve_stock :
    ∀ (p : Product) (qty : ℤ), 0 ≤ qty →
      (p.is_active = false →
        ∃ m, p.reserve_stock qty = .error (.businessRuleViolation m)) ∧
      (p.is_active = true → p.stock.quantity < qty →
        ∃ m, p.reserve_stock qty = .error (.businessRuleViolation m)) ∧
      (p.is_active = true → qty ≤ p.stock.quantity →
        p.reserve_stock qty = .ok { p with stock := ⟨p.stock.quantity - qty⟩ }) := by
  intro p qty hqty
  refine ⟨?_, ?_, ?_⟩
  · intro hinact
    exact ⟨_, by rw [Product.reserve_stock, if_pos hinact]⟩
  · intro hact hlt
    have hav : p.stock.is_available qty = false := by
      simp [Stock.is_available, not_le.mpr hlt]
    exact ⟨_, by rw [Product.reserve_stock, if_neg (by simp [hact]), if_pos hav]⟩
  · intro hact hle
    have hav : ¬ p.stock.is_available qty = false := by
      simp [Stock.is_available, hle]
    rw [Product.reserve_stock, if_neg (by simp [hact]), if_neg hav]
    rw [Stock.decrease, if_neg (not_lt.mpr hqty), if_neg (by omega)]

/-- Claim C9 as stated is false at `qty = -1`: the product is active and its
stock (5) is not below the requested quantity, so the claim predicts success,
but the call raises `ValidationError` from `stock.decrease`. -/
theorem C9_counterexample :
    p_active5.is_active = true ∧
    ¬ p_active5.stock.quantity < (-1 : ℤ) ∧
    p_active5.reserve_stock (-1) =
      .error (.validationError "No se puede reducir el stock por una cantidad negativa") := by
  decide

/-- Witness for C9 at `qty = 2` on an active product with stock 5. -/
theorem C9_witness :
    (0 : ℤ) ≤ 2 ∧ p_active5.is_active = true ∧
    (2 : ℤ) ≤ p_active5.stock.quantity ∧
    p_active5.reserve_stock 2 = .ok { p_active5 with stock := ⟨p_active5.stock.quantity - 2⟩ } :=
  ⟨by decide, rfl, by decide,
   (C9_reserve_stock p_active5 2 (by decide)).2.2 rfl (by decide)⟩

/-! ## Claim C10 -/

/-- Claim C10: `verify_product_exists` is a total Boolean function of the
lookup outcome — `true` exactly when the lookup returned a product, `false`
when the product is absent and when the lookup raised any exception (the two
cases are indistinguishable), and the modelled gateway method is this
function applied to the modelled (total) repository lookup. -/
theorem C10_verify_product_exists :
    (∀ r : Except DomainError (Option Product),
      verify_product_exists_outcome r = true ↔ ∃ p, r = .ok (some p)) ∧
    (∀ e, verify_product_exists_outcome (.error e) = false) ∧
    verify_product_exists_outcome (.ok none) = false ∧
    (∀ (s : State) (product_id : Nat),
      CatalogoInventoryGateway.verify_product_exists s product_id =
        verify_product_exists_outcome (.ok (get_by_id s product_id))) := by
  refine ⟨?_, fun e => rfl, rfl, fun s pid => rfl⟩
  intro r
  match r with
  | .ok (some p) => simp [verify_product_exists_outcome]
  | .ok none => simp [verify_product_exists_outcome]
  | .error e => simp [verify_product_exists_outcome]

/-- Witness for C10: a present product makes the check `true`. -/
theorem C10_witness :
    verify_product_exists_outcome (.ok (some p_active5)) = true :=
  (C10_verify_product_exists.1 _).mpr ⟨p_active5, rfl⟩

/-! ## Claim C7 -/

/-- Claim C7: the order status state machine.  Each transition method
succeeds exactly from its allowed source states, setting exactly the target
status (all other fields untouched), and raises `BusinessRuleViolation` from
every other state; a raise returns no mutated order, so the status is
unchanged. -/
theorem C7_status_machine :
    ∀ o : Order,
      (o.status = .pending → o.confirm = .ok { o with status := .confirmed }) ∧
      (o.status ≠ .pending → ∃ m, o.confirm = .error (.businessRuleViolation m)) ∧
      (o.status = .confirmed → o.mark_as_processing = .ok { o with status := .processing }) ∧
      (o.status ≠ .confirmed → ∃ m, o.mark_as_processing = .error (.businessRuleViolation m)) ∧
      (o.status = .processing → o.mark_as_shipped = .ok { o with status := .shipped }) ∧
      (o.status ≠ .processing → ∃ m, o.mark_as_shipped = .error (.businessRuleViolation m)) ∧
      (o.status = .shipped → o.mark_as_delivered = .ok { o with status := .delivered }) ∧
      (o.status ≠ .shipped → ∃ m, o.mark_as_delivered = .error (.businessRuleViolation m)) ∧
      ((o.status = .pending ∨ o.status = .confirmed ∨ o.status = .processing) →
        o.cancel = .ok { o with status := .cancelled }) ∧
      ((o.status = .shipped ∨ o.status = .delivered ∨ o.status = .cancelled) →
        ∃ m, o.cancel = .error (.businessRuleViolation m)) := by
  rintro ⟨ci, its, ad, st, ta⟩
  cases st <;>
    simp [Order.confirm, Order.cancel, Order.mark_as_processing,
      Order.mark_as_shipped, Order.mark_as_delivered]

/-- Witness for C7: confirming a pending order yields a confirmed order, and
a second confirm on the result fails; cancel fails on a shipped order. -/
theorem C7_witness :
    ord_pending.status = .pending ∧
    ord_pending.confirm = .ok { ord_pending with status := .confirmed } ∧
    ({ ord_pending with status := OrderStatus.confirmed }.status ≠ .pending) ∧
    (∃ m, { ord_pending with status := OrderStatus.confirmed }.confirm =
      .error (.businessRuleViolation m)) ∧
    (ord_shipped.status = .shipped ∨ ord_shipped.status = .delivered ∨
      ord_shipped.status = .cancelled) ∧
    (∃ m, ord_shipped.cancel = .error (.businessRuleViolation m)) :=
  ⟨rfl,
   (C7_status_machine ord_pending).1 rfl,
   by decide,
   (C7_status_machine _).2.1 (by decide),
   Or.inl rfl,
   (C7_status_machine ord_shipped).2.2.2.2.2.2.2.2.2 (Or.inl rfl)⟩

/-! ## Claim C8 -/

/-- Claim C8: constructing an Order with zero items fails; with at least one
item and present customer/address it succeeds, the total being the sum of the
rounded item subtotals, rounded to 2 decimals; `add_item` succeeds only while
`PENDING` and recomputes the total by the same formula. -/
theorem C8_order_total :
    (∀ ci ad, mkOrder ci [] ad =
      .error (.businessRuleViolation "Una orden debe tener al menos un item")) ∧
    (∀ ci ad items, items ≠ [] →
      mkOrder (some ci) items (some ad) =
        .ok { customer_info := some ci
              items := items
              shipping_address := some ad
              status := .pending
              total_amount := round2 ((items.map OrderItem.calculate_subtotal).sum) }) ∧
    (∀ (o : Order) (item : OrderItem), o.status = .pending →
      o.add_item item =
        .ok { o with
              items := o.items ++ [item]
              total_amount :=
                round2 (((o.items ++ [item]).map OrderItem.calculate_subtotal).sum) }) ∧
    (∀ (o : Order) (item : OrderItem), o.status ≠ .pending →
      ∃ m, o.add_item item = .error (.businessRuleViolation m)) := by
  refine ⟨fun ci ad => rfl, ?_, ?_, ?_⟩
  · intro ci ad items h
    rw [mkOrder, mkOrderFull, if_neg h]
    simp [Order.calculate_total]
  · intro o item h
    rw [Order.add_item, if_neg (by simp [h])]
    simp [Order.calculate_total]
  · intro o item h
    exact ⟨_, by rw [Order.add_item, if_pos h]⟩

/-- Rounding an integer-valued rational to the nearest integer is the
identity. -/
theorem roundHalfEven_intCast (n : ℤ) : roundHalfEven (n : ℚ) = n := by
  unfold roundHalfEven
  rw [Int.floor_intCast]
  norm_num

/-- `round2` is the identity on integer-valued rationals. -/
theorem round2_intCast (n : ℤ) : round2 (n : ℚ) = n := by
  unfold round2
  rw [show ((n : ℚ) * 100) = ((n * 100 : ℤ) : ℚ) by push_cast; ring,
    roundHalfEven_intCast]
  push_cast
  rw [mul_div_assoc]
  norm_num

/-- Witness for C8: one item of 2 × 50.00 gives a pending order with total
100.00, and the zero-item construction fails. -/
theorem C8_witness :
    ([oi50] : List OrderItem) ≠ [] ∧
    mkOrder (some cust0) [oi50] (some addr0) =
      .ok { customer_info := some cust0
            items := [oi50]
            shipping_address := some addr0
            status := .pending
            total_amount := round2 (([oi50].map OrderItem.calculate_subtotal).sum) } ∧
    round2 (([oi50].map OrderItem.calculate_subtotal).sum) = 100 ∧
    mkOrder (some cust0) [] (some addr0) =
      .error (.businessRuleViolation "Una orden debe tener al menos un item") :=
  ⟨by simp,
   C8_order_total.2.1 cust0 addr0 [oi50] (by simp),
   by
     show round2 (List.sum (List.map OrderItem.calculate_subtotal [oi50])) = 100
     simp only [List.map_cons, List.map_nil, List.sum_cons, List.sum_nil, add_zero]
     show round2 (round2 (((2 : ℤ) : ℚ) * 50)) = 100
     rw [show ((2 : ℤ) : ℚ) * 50 = ((100 : ℤ) : ℚ) by push_cast; norm_num,
       round2_intCast, round2_intCast]
     norm_num,
   C8_order_total.1 (some cust0) (some addr0)⟩

/-! ## Claim C2 -/

/-- Claim C2 evaluated at a failing input (code bug): the orchestrator
constructs every preliminary `OrderItem` with unit price `0.0`, which the
`OrderItem` validation rejects (`unit_price <= 0`), so place-order raises
`BusinessRuleViolation` before ever reaching the reservation step — the
preliminary items are not built "without failing" and no order can be
placed. -/
theorem C2_placeholder_item_rejected :
    mkOrderItem 1 "" ⟨2⟩ 0 =
      .error (.businessRuleViolation "El precio unitario debe ser mayor que 0") ∧
    place_order_execute catalogoInventoryGateway s0 cmd0 =
      (s0, .error (.businessRuleViolation "El precio unitario debe ser mayor que 0")) := by
  exact ⟨by decide, by decide⟩

/-! ## Claim C5 -/

/-- Claim C5 evaluated at a failing input (code bug): after a successful
reservation of 2 units (stock 10 → 8), `release_stock` on the same items
returns `True` but leaves the state — hence product 1's stock — unchanged at
8 instead of restoring the pre-reservation value 10; in fact `release_stock`
is a placeholder that never modifies any state. -/
theorem C5_release_stock_noop :
    CatalogoInventoryGateway.verify_and_reserve_stock s0 rel_items =
      (s_reserved, .ok ([⟨1, "Laptop", ⟨2⟩, 50⟩], true)) ∧
    (get_by_id s0 1).map (fun p => p.stock.quantity) = some 10 ∧
    (get_by_id s_reserved 1).map (fun p => p.stock.quantity) = some 8 ∧
    CatalogoInventoryGateway.release_stock s_reserved rel_items =
      (s_reserved, .ok true) ∧
    (∀ (s : State) (items : List OrderItem),
      CatalogoInventoryGateway.release_stock s items = (s, .ok true)) :=
  ⟨by decide, by decide, by decide, rfl, fun s items => rfl⟩

/-! ## Claim C1 -/

/-- The verification phase raises on any batch containing a bad item (and
performs no state update — it takes the state read-only by construction,
mirroring the source loop, which only reads). -/
theorem verification_phase_error_of_bad :
    ∀ (l : List ReserveStockItemCommand) (s : State),
      (∃ c ∈ l, bad_item s c.product_id c.quantity) →
      ∃ e, verification_phase s l = .error e := by
  intro l
  induction l with
  | nil =>
      rintro s ⟨c, hc, _⟩
      exact absurd hc (List.not_mem_nil c)
  | cons a l ih =>
      rintro s ⟨c, hc, hbad⟩
      match hga : get_by_id s a.product_id with
      | none =>
          exact ⟨_, by rw [verification_phase, hga]⟩
      | some p =>
          have hred : verification_phase s (a :: l) =
              if p.stock.is_available a.quantity = false then
                .error (.businessRuleViolation
                  ("Stock insuficiente para el producto " ++ p.name))
              else verification_phase s l := by
            rw [verification_phase, hga]
          by_cases hav : p.stock.is_available a.quantity = false
          · exact ⟨_, by rw [hred, if_pos hav]⟩
          · have hstep : verification_phase s (a :: l) = verification_phase s l := by
              rw [hred, if_neg hav]
            rcases List.mem_cons.mp hc with rfl | hcl
            · exfalso
              rcases hbad with hnone | ⟨q, hq, hlt⟩
              · rw [hga] at hnone; exact Option.noConfusion hnone
              · rw [hga] at hq
                cases Option.some.injEq .. ▸ hq
                simp only [Stock.is_available, decide_eq_false_iff_not, not_not] at hav
                omega
            · rw [hstep]
              exact ih s ⟨c, hcl, hbad⟩

/-- Claim C1: whenever any item of the batch refers to a missing product or
to a product whose available stock is below the requested quantity, the
gateway call fails with `StockReservationError` and returns the state it was
given: no product's stock is mutated. -/
theorem C1_failed_batch_mutates_nothing :
    ∀ (s : State) (items : List OrderItem),
      (∃ it ∈ items, bad_item s it.product_id it.quantity.value) →
      ∃ m, CatalogoInventoryGateway.verify_and_reserve_stock s items =
        (s, .error (.stockReservationError m)) := by
  rintro s items ⟨it, hmem, hbad⟩
  have hmap : ∃ c ∈ items.map (fun it =>
      ReserveStockItemCommand.mk it.product_id it.quantity.value),
      bad_item s c.product_id c.quantity :=
    ⟨⟨it.product_id, it.quantity.value⟩, List.mem_map_of_mem _ hmem, hbad⟩
  obtain ⟨e, he⟩ := verification_phase_error_of_bad _ s hmap
  have hne : items.isEmpty = false := by
    cases items with
    | nil => exact absurd hmem (List.not_mem_nil it)
    | cons a l => rfl
  refine ⟨wrap_reservation_error e, ?_⟩
  rw [CatalogoInventoryGateway.verify_and_reserve_stock]
  rw [if_neg (by rw [hne]; exact Bool.false_ne_true)]
  rw [ReserveStockUseCase.execute, he]

/-- Witness for C1: a 3-item batch whose second item requests 5 units of a
product with stock 1 fails with `StockReservationError` and leaves the state
(in particular the stocks of products 1 and 3) exactly as before. -/
theorem C1_witness :
    (∃ it ∈ [c1_item1, c1_item2, c1_item3],
      bad_item s0 it.product_id it.quantity.value) ∧
    ∃ m, CatalogoInventoryGateway.verify_and_reserve_stock s0
        [c1_item1, c1_item2, c1_item3] = (s0, .error (.stockReservationError m)) := by
  have hbad : ∃ it ∈ [c1_item1, c1_item2, c1_item3],
      bad_item s0 it.product_id it.quantity.value :=
    ⟨c1_item2, by simp, Or.inr ⟨P2, by decide, by decide⟩⟩
  exact ⟨hbad, C1_failed_batch_mutates_nothing s0 _ hbad⟩

/-! ## Claim C3 -/

/-- `mkCustomerInfo` never raises `StockReservationError`. -/
theorem mkCustomerInfo_error_not_sre :
    ∀ (a b c d : String) (e : DomainError),
      mkCustomerInfo a b c d = .error e → e.is_sre = false := by
  intro a b c d e h
  unfold mkCustomerInfo at h
  split_ifs at h <;> first
    | exact Except.noConfusion h
    | (cases h; rfl)

/-- `mkAddress` never raises `StockReservationError`. -/
theorem mkAddress_error_not_sre :
    ∀ (a b c d f : String) (e : DomainError),
      mkAddress a b c d f = .error e → e.is_sre = false := by
  intro a b c d f e h
  unfold mkAddress at h
  split_ifs at h <;> first
    | exact Except.noConfusion h
    | (cases h; rfl)

/-- `mkQuantity` never raises `StockReservationError`. -/
theorem mkQuantity_error_not_sre :
    ∀ (v : ℤ) (e : DomainError), mkQuantity v = .error e → e.is_sre = false := by
  intro v e h
  unfold mkQuantity at h
  split_ifs at h <;> first
    | exact Except.noConfusion h
    | (cases h; rfl)

/-- The preliminary-item loop never raises `StockReservationError`. -/
theorem build_preliminary_items_error_not_sre :
    ∀ (gw : InventoryGateway) (s : State) (l : List OrderItemCommand) (e : DomainError),
      build_preliminary_items gw s l = .error e → e.is_sre = false := by
  intro gw s l e h
  cases l with
  | nil => exact Except.noConfusion h
  | cons a l =>
      rw [build_preliminary_items] at h
      split_ifs at h with hex
      · cases h; rfl
      · cases hq : mkQuantity a.quantity with
        | error e2 =>
            rw [hq] at h
            have h2 : (Except.error e2 : Except DomainError (List OrderItem)) = .error e := h
            cases h2
            exact mkQuantity_error_not_sre a.quantity _ hq
        | ok q =>
            rw [hq] at h
            have h2 : (Except.error
                (.businessRuleViolation "El precio unitario debe ser mayor que 0") :
                Except DomainError (List OrderItem)) = .error e := h
            cases h2
            rfl

/-- `mkOrderFull` never raises `StockReservationError`. -/
theorem mkOrderFull_error_not_sre :
    ∀ ci items ad st ta (e : DomainError),
      mkOrderFull ci items ad st ta = .error e → e.is_sre = false := by
  intro ci items ad st ta e h
  unfold mkOrderFull at h
  split_ifs at h <;> first
    | exact Except.noConfusion h
    | (cases h; rfl)

/-- `Order.confirm` never raises `StockReservationError`. -/
theorem confirm_error_not_sre :
    ∀ (o : Order) (e : DomainError), o.confirm = .error e → e.is_sre = false := by
  intro o e h
  unfold Order.confirm at h
  split_ifs at h <;> first
    | exact Except.noConfusion h
    | (cases h; rfl)

/-- Under the gateway port contract (every gateway failure is a
`StockReservationError`), the orchestrator's reservation step never lets a
`StockReservationError` out: it is converted. -/
theorem place_order_reserve_step_error_not_sre :
    ∀ (gw : InventoryGateway) (s : State) (items : List OrderItem) (s2 : State)
      (e : DomainError),
      (∀ (s3 : State) (its : List OrderItem) (s4 : State) (e2 : DomainError),
        gw.verify_and_reserve_stock s3 its = (s4, .error e2) → e2.is_sre = true) →
      place_order_reserve_step gw s items = (s2, .error e) → e.is_sre = false := by
  intro gw s items s2 e hgw h
  rw [place_order_reserve_step] at h
  rcases hcall : gw.verify_and_reserve_stock s items with ⟨s3, r⟩
  rw [hcall] at h
  cases r with
  | ok v =>
      have h2 : (s3, Except.ok v) = (s2, Except.error e) := h
      exact Except.noConfusion (congrArg Prod.snd h2)
  | error e2 =>
      have he2 : e2.is_sre = true := hgw s items s3 e2 hcall
      cases e2 with
      | stockReservationError m =>
          have h2 : (s3, Except.error
              (DomainError.businessRuleViolation
                ("No se pudo reservar el stock: " ++ m))) = (s2, Except.error e) := h
          have h3 := congrArg Prod.snd h2
          injection h3 with h4
          cases h4
          rfl
      | validationError m => exact absurd he2 (by simp [DomainError.is_sre])
      | businessRuleViolation m => exact absurd he2 (by simp [DomainError.is_sre])
      | notFoundError n i => exact absurd he2 (by simp [DomainError.is_sre])
      | unexpectedError m => exact absurd he2 (by simp [DomainError.is_sre])

/-- Every failure of the concrete catalog gateway is a
`StockReservationError` (port contract of `verify_and_reserve_stock`). -/
theorem catalogo_gateway_error_is_sre :
    ∀ (s : State) (items : List OrderItem) (s2 : State) (e : DomainError),
      CatalogoInventoryGateway.verify_and_reserve_stock s items = (s2, .error e) →
      e.is_sre = true := by
  intro s items s2 e h
  rw [CatalogoInventoryGateway.verify_and_reserve_stock] at h
  split_ifs at h with hemp
  · have h2 : ((s, Except.error (DomainError.stockReservationError
        "Error inesperado al reservar stock: lista de items vacia")) :
        State × Except DomainError (List OrderItem × Bool)) = (s2, .error e) := h
    injection (congrArg Prod.snd h2) with h3
    cases h3
    rfl
  · rcases hex : ReserveStockUseCase.execute s
        { items := items.map fun it =>
            ReserveStockItemCommand.mk it.product_id it.quantity.value } with ⟨s3, r⟩
    rw [hex] at h
    cases r with
    | error e2 =>
        have h2 : ((s3, Except.error (DomainError.stockReservationError
            (wrap_reservation_error e2))) :
            State × Except DomainError (List OrderItem × Bool)) = (s2, .error e) := h
        injection (congrArg Prod.snd h2) with h3
        cases h3
        rfl
    | ok resp =>
        have h2 : ((s3, Except.ok (backfill_items items resp.products, resp.success)) :
            State × Except DomainError (List OrderItem × Bool)) = (s2, .error e) := h
        exact Except.noConfusion (congrArg Prod.snd h2)

/-- Claim C3, amended: the orchestrator catches `StockReservationError` from
the reservation step and re-raises it as `BusinessRuleViolation` wrapping the
message (so the same `StockReservationError` does not propagate unchanged);
consequently, for any gateway honouring the port contract (all failures are
`StockReservationError`), place-order never surfaces a
`StockReservationError` — in particular the Orders caller never observes a
Catalog-internal exception. -/
theorem C3_sre_caught_and_wrapped :
    (∀ (gw : InventoryGateway) (s : State) (items : List OrderItem) (s2 : State)
       (m : String),
      gw.verify_and_reserve_stock s items = (s2, .error (.stockReservationError m)) →
      place_order_reserve_step gw s items =
        (s2, .error (.businessRuleViolation ("No se pudo reservar el stock: " ++ m)))) ∧
    (∀ (gw : InventoryGateway) (s : State) (cmd : PlaceOrderCommand) (s2 : State)
       (e : DomainError),
      (∀ (s3 : State) (its : List OrderItem) (s4 : State) (e2 : DomainError),
        gw.verify_and_reserve_stock s3 its = (s4, .error e2) → e2.is_sre = true) →
      place_order_execute gw s cmd = (s2, .error e) → e.is_sre = false) := by
  constructor
  · intro gw s items s2 m h
    rw [place_order_reserve_step, h]
  · intro gw s cmd s2 e hgw h
    unfold place_order_execute at h
    split at h
    · injection h with h1 h2
      injection h2 with h3
      cases h3
      exact mkCustomerInfo_error_not_sre _ _ _ _ _ (by assumption)
    · split at h
      · injection h with h1 h2
        injection h2 with h3
        cases h3
        exact mkAddress_error_not_sre _ _ _ _ _ _ (by assumption)
      · split at h
        · injection h with h1 h2
          injection h2 with h3
          cases h3
          exact build_preliminary_items_error_not_sre _ _ _ _ (by assumption)
        · split at h
          · injection h with h1 h2
            injection h2 with h3
            cases h3
            exact place_order_reserve_step_error_not_sre _ _ _ _ _ hgw (by assumption)
          · split at h
            · injection h with h1 h2
              injection h2 with h3
              cases h3
              exact mkOrderFull_error_not_sre _ _ _ _ _ _ (by assumption)
            · split at h
              · injection h with h1 h2
                injection h2 with h3
                cases h3
                exact confirm_error_not_sre _ _ (by assumption)
              · exact Except.noConfusion (congrArg Prod.snd h)

/-- Claim C3 as stated is false at a concrete input: when the gateway raises
`StockReservationError`, the orchestrator's reservation step does not let the
same `StockReservationError` propagate — the caller receives a
`BusinessRuleViolation` instead. -/
theorem C3_counterexample :
    place_order_reserve_step gw_bad [] [] =
      ([], .error (.businessRuleViolation "No se pudo reservar el stock: stock agotado")) ∧
    place_order_reserve_step gw_bad [] [] ≠
      ([], .error (.stockReservationError "stock agotado")) := by
  exact ⟨by decide, by decide⟩

/-- Witness for C3: the wrapping behaviour applied to the always-failing
gateway. -/
theorem C3_witness :
    gw_bad.verify_and_reserve_stock [] [] =
      ([], .error (.stockReservationError "stock agotado")) ∧
    place_order_reserve_step gw_bad [] [] =
      ([], .error (.businessRuleViolation
        ("No se pudo reservar el stock: " ++ "stock agotado"))) :=
  ⟨rfl, C3_sre_caught_and_wrapped.1 gw_bad [] [] [] "stock agotado" rfl⟩
